import Mathlib

/-!
Verification of the feed deduplication and delivery-state core of the
MM-Cogs repository (files `redditmm/redditmm.py` and `redditmm/redditmmdb.py`).

The development shallowly embeds:
* the `format_send` filter/dedup/dispatch pipeline and the in-file
  `RedditMMDB` helper class of `redditmm.py` (namespace `RedditMM`);
* the standalone store module `redditmmdb.py` (namespace `RedditMMDB`),
  including its table uniqueness constraints and its
  `try/except sqlite3.DatabaseError` error handling;
* the `do_feeds` scheduler tick with its tick-local fetch cache.

External pure collaborators (`html.unescape`, `validators.url`) are passed
in as an explicit record of functions; the chat platform and the reddit
client are represented only through the data they deliver to the core.
-/

/-- External pure helper functions used by `format_send`:
`html.unescape` and `validators.url`.  Both are outside the repository,
so they are parameters of the embedding. -/
structure PyExt where
  unescape : String → String
  validUrl : String → Bool

/-- Does `hay` begin with block `needle`? (helper for substring tests). -/
def chStarts : List Char → List Char → Bool
  | [], _ => true
  | _ :: _, [] => false
  | a :: as, b :: bs => a == b && chStarts as bs

/-- Does `needle` occur contiguously inside the second list?
Models the Python `needle in hay` test on strings. -/
def chHasSub (needle : List Char) : List Char → Bool
  | [] => chStarts needle []
  | b :: bs => chStarts needle (b :: bs) || chHasSub needle bs

/-- Python `needle in hay` on strings. -/
def strContains (hay needle : String) : Bool :=
  chHasSub needle.toList hay.toList

/-- Python `s.endswith(suffix)`. -/
def strEnds (s suffix : String) : Bool :=
  chStarts suffix.toList.reverse s.toList.reverse

/-- Characters strictly before the last dot, if a dot exists. -/
def cutLastDot : List Char → Option (List Char)
  | [] => none
  | c :: cs =>
    match cutLastDot cs with
    | some tail => some (c :: tail)
    | none => if c == '.' then some [] else none

/-- Python `s.rsplit(".", maxsplit=1)[0]`: drop the last dot and what follows
it; the whole string when there is no dot. -/
def rsplitDotHead (s : String) : String :=
  match cutLastDot s.toList with
  | some cs => String.mk cs
  | none => s

/-- Python `s.endswith(("png", "jpg", "jpeg", "gif"))` from the media branch
of `format_send`. -/
def endsImg (s : String) : Bool :=
  strEnds s "png" || strEnds s "jpg" || strEnds s "jpeg" || strEnds s "gif"

/-- `redbot.core.utils.chat_formatting.spoiler`. -/
def spoilerWrap (s : String) : String := "||" ++ s ++ "||"

/-- A value stored in the ad hoc `settings` dictionary passed to
`format_send`: the callers only ever store booleans and strings. -/
inductive SettVal where
  | b (v : Bool)
  | s (v : String)
deriving DecidableEq

/-- The `settings` dictionary of `format_send`, as the association list the
callers literally build. -/
abbrev Settings := List (String × SettVal)

/-- Python dict lookup `settings.get(k)` (no default). -/
def settingsGet? : Settings → String → Option SettVal
  | [], _ => none
  | p :: rest, k => if p.1 = k then some p.2 else settingsGet? rest k

/-- Python dict lookup `settings.get(k, d)` with a default. -/
def settingsGetD (s : Settings) (k : String) (d : SettVal) : SettVal :=
  (settingsGet? s k).getD d

/-- Python truthiness of a settings value. -/
def truthyV : SettVal → Bool
  | SettVal.b v => v
  | SettVal.s v => !v.isEmpty

/-- Python truthiness of `settings.get(k)` when the key may be absent. -/
def truthyO : Option SettVal → Bool
  | none => false
  | some v => truthyV v

/-- `REDDIT_LOGO` from `redditmm.py`. -/
def REDDIT_LOGO : String := "https://www.redditinc.com/assets/images/site/reddit-logo.png"

/-- A candidate post as consumed by `format_send` (the attributes of an
asyncpraw submission that the pipeline reads).  `format_send` dereferences
`feed.author.name` unconditionally, so the author name is modelled as
always present. -/
structure Submission where
  created_utc : Int
  over_18 : Bool
  authorName : String
  url : String
  permalink : String
  selftext : String
  title : String
  spoiler : Bool
  subreddit : String
deriving DecidableEq

/-- The destination channel data the pipeline reads: the guild identifier,
`channel.is_nsfw()`, and whether webhook delivery resolves a webhook (the
`manage_webhooks` permission together with a successful find-or-create,
which is platform behaviour outside the repository). -/
structure Chan where
  guildId : Int
  nsfw : Bool
  canWebhook : Bool
deriving DecidableEq

/-- A Python exception escaping a modelled function.  The only exception
the embedded code paths can actually raise themselves is `NameError`, from
evaluating an identifier that is not bound in the module. -/
inductive PyErr where
  | nameError (missing : String)
deriving DecidableEq

/-- Python name resolution for an unqualified identifier inside a function
body: it succeeds only when the name is bound at module level (locals and
builtins are not in play for the names modelled here). -/
def pyName (moduleGlobals : List String) (n : String) : Except PyErr Unit :=
  if moduleGlobals.contains n then Except.ok () else Except.error (PyErr.nameError n)

namespace RedditMM

/-- The state of the `RedditMMDB` helper class defined inside
`redditmm.py` (the instance `format_send` uses): its `seen_urls` and
`ignored_redditors` tables.  This in-file copy of the store creates the
tables without uniqueness constraints, so rows are plain lists. -/
structure DB where
  seen : List (Int × String)
  ignored : List (Int × String)
deriving DecidableEq

/-- `redditmm.py` `RedditMMDB.get_seen_url`: the row id of the first
matching `(guildID, url)` row, else `None`. -/
def get_seen_url (db : DB) (guildID : Int) (url : String) : Option Nat :=
  db.seen.findIdx? fun r => r.1 == guildID && r.2 == url

/-- `redditmm.py` `RedditMMDB.add_seen_url`: inserts unconditionally (this
copy of the table has no uniqueness constraint); the pipeline discards the
returned row count, so only the state change is modelled. -/
def add_seen_url (db : DB) (guildID : Int) (url : String) : DB :=
  { db with seen := db.seen ++ [(guildID, url)] }

/-- `redditmm.py` `RedditMMDB.get_ignored_redditor`. -/
def get_ignored_redditor (db : DB) (guildID : Int) (redditor : String) : Option Nat :=
  db.ignored.findIdx? fun r => r.1 == guildID && r.2 == redditor

/-- A Discord embed as populated by `format_send` (the fields the pipeline
writes; colour is platform display state and is omitted). -/
structure Embed where
  title : String
  url : String
  description : String
  timestamp : Int
  authorLine : String
  footerText : String
  image : Option String
  fields : List (String × String)
deriving DecidableEq

/-- The `post` dictionary accumulated by the filter loop. -/
structure Post where
  author : String
  content_link : Option String
  embeds : List Embed
deriving DecidableEq

/-- The constructor arguments of the `PosterView` UI class: it adds an
author button when `show_author` and the author exists, and a "Source"
button with URL `source` when `show_source`. -/
structure PosterView where
  author : String
  show_author : Bool
  source : String
  show_source : Bool
deriving DecidableEq

/-- The URL of the "Source" button a `PosterView` carries, if it shows one. -/
def PosterView.sourceButtonUrl (v : PosterView) : Option String :=
  if v.show_source then some v.source else none

/-- One delivery performed by the dispatch phase of `format_send`: either a
bot-authored message (embeds, optional `PosterView`, optional extra content
message carrying the content link with its own `PosterView`, and the publish
flag) or a webhook send (username, avatar url, embeds). -/
inductive Dispatch where
  | bot (embeds : List Embed) (view : Option PosterView)
        (contentMsg : Option (String × PosterView)) (publish : Bool)
  | hook (username : String) (avatarUrl : SettVal) (embeds : List Embed)
deriving DecidableEq

/-- All "Source"-button URLs attached to a dispatched delivery. -/
def Dispatch.sourceUrls : Dispatch → List String
  | Dispatch.bot _ v c _ =>
      (Option.bind v PosterView.sourceButtonUrl).toList
        ++ (Option.bind (c.map Prod.snd) PosterView.sourceButtonUrl).toList
  | Dispatch.hook _ _ _ => []

/-- The URLs of the embeds a dispatched delivery carries (identifying which
post a delivery is about: line 788 sets the embed url from the post's own
permalink link). -/
def Dispatch.embedUrls : Dispatch → List String
  | Dispatch.bot e _ _ _ => e.map Embed.url
  | Dispatch.hook _ _ e => e.map Embed.url

/-- Lines 761-828 of `redditmm.py`: build the embed, the `post` dictionary
and the `images` flag for one candidate that passed the timestamp, ignore
and seen checks.  Returns `(post, images)`. -/
def buildPost (ext : PyExt) (subreddit : String) (f : Submission) (link : String) :
    Post × Bool :=
  let desc0 := ext.unescape f.selftext
  let desc1 := if desc0.length > 2000 then desc0.take 2000 ++ "..." else desc0
  let title1 := if f.title.length > 252 then f.title.take 252 ++ "..." else f.title
  let desc := if f.spoiler then "(spoiler)\n" ++ spoilerWrap desc1 else desc1
  let image := f.url
  let base : Embed :=
    { title := ext.unescape title1, url := ext.unescape link,
      description := desc, timestamp := f.created_utc,
      authorLine := "New post on r/" ++ ext.unescape subreddit,
      footerText := "u/" ++ ext.unescape f.authorName,
      image := none, fields := [] }
  let ecl :=
    if strContains image "redgifs.com" && !strContains image f.permalink
        && ext.validUrl image then
      if strContains image "i.redgifs.com" then
        if endsImg image then
          (base,
           some (rsplitDotHead (((ext.unescape image).replace "i.redgifs.com"
             "www.redgifs.com").replace "/i/" "/watch/")),
           true)
        else
          ({ base with
              image := some (ext.unescape image),
              fields := base.fields ++ [("RedGIFS URL", ext.unescape image)] },
           none, true)
      else
        (base, some (ext.unescape image), true)
    else if !strContains image f.permalink && ext.validUrl image
        && strContains image "gallery" then
      ({ base with
          image := some (ext.unescape image),
          fields := base.fields ++ [("Gallery URL", ext.unescape image)] },
       none, true)
    else if endsImg image && !f.spoiler then
      ({ base with
          image := some (ext.unescape image),
          fields := base.fields ++ [("Image URL", ext.unescape image)] },
       none, true)
    else if !strContains image f.permalink && ext.validUrl image then
      ({ base with fields := base.fields ++ [("Attachment", ext.unescape image)] },
       none, false)
    else
      (base, none, false)
  ({ author := f.authorName, content_link := ecl.2.1, embeds := [ecl.1] }, ecl.2.2)

/-- The mutable locals of the filter loop of `format_send`: the
`timestamps` and `posts` accumulators, the store state, and the loop
variables `link` and `feed` that survive the loop (`none` models a name
that was never assigned). -/
structure LoopState where
  timestamps : List Int
  posts : List Post
  db : DB
  link : Option String
  feedVar : Option Submission
deriving DecidableEq

/-- Lines 743-832 of `redditmm.py`: the filter loop of `format_send`.
Each candidate is checked in order: the adult-content skip (which appends
the timestamp and continues), the cursor break, the ignored-author skip,
the seen-url skip, the media/image-only skip, and finally admission, which
appends the post and marks the url seen. -/
def filterLoop (ext : PyExt) (ch : Chan) (last_post : Int) (subreddit : String)
    (settings : Settings) : List Submission → LoopState → LoopState
  | [], st => st
  | f :: rest, st =>
    if f.over_18 && !ch.nsfw then
      filterLoop ext ch last_post subreddit settings rest
        { st with timestamps := st.timestamps ++ [f.created_utc], feedVar := some f }
    else if f.created_utc ≤ last_post then
      { st with feedVar := some f }
    else
      let st1 : LoopState :=
        { st with timestamps := st.timestamps ++ [f.created_utc], feedVar := some f }
      if (get_ignored_redditor st1.db ch.guildId (ext.unescape f.authorName)).isSome then
        filterLoop ext ch last_post subreddit settings rest st1
      else if (get_seen_url st1.db ch.guildId f.url).isSome then
        filterLoop ext ch last_post subreddit settings rest st1
      else
        let link := "https://reddit.com" ++ f.permalink
        let st2 : LoopState := { st1 with link := some link }
        let pi := buildPost ext subreddit f link
        if truthyO (settingsGet? settings "image_only") && !pi.2 then
          filterLoop ext ch last_post subreddit settings rest st2
        else
          filterLoop ext ch last_post subreddit settings rest
            { st2 with
              posts := st2.posts ++ [pi.1],
              db := add_seen_url st2.db ch.guildId f.url }

/-- The subreddit attribute read off the loop variable `feed` after the
filter loop ends (`f"r/{feed.subreddit} ..."`, line 861); `none` models a
never-assigned loop variable. -/
def feedVarSubreddit : Option Submission → String
  | some f => f.subreddit
  | none => ""

/-- One delivery of the dispatch loop (lines 837-864): a bot message when no
webhook was resolved, else a webhook send.  `st` carries the loop variables
`link` and `feed` as the filter loop left them — exactly as the source reads
them here. -/
def mkDispatchItem (ext : PyExt) (settings : Settings) (webhookOn : Bool)
    (st : LoopState) (post : Post) : Dispatch :=
  if webhookOn = false then
    Dispatch.bot post.embeds
      (if post.content_link = none then
        some ⟨post.author, true, st.link.getD "",
          truthyV (settingsGetD settings "source_button" (SettVal.b false))⟩
      else none)
      (match post.content_link with
       | some cl =>
         some ("( " ++ cl ++ " )",
           ⟨post.author, true, st.link.getD "",
             truthyV (settingsGetD settings "source_button" (SettVal.b false))⟩)
       | none => none)
      (truthyV (settingsGetD settings "publish" (SettVal.b false)))
  else
    Dispatch.hook
      ("r/" ++ feedVarSubreddit st.feedVar ++ " (u/" ++ ext.unescape post.author ++ ")")
      (settingsGetD settings "icon" (SettVal.s REDDIT_LOGO))
      post.embeds

/-- The observable outcome of one `format_send` call: the returned cursor
(`timestamps[0]` or `None`), the store state, the loop accumulators and
final loop variables, and the deliveries performed. -/
structure FSResult where
  ret : Option Int
  db : DB
  timestamps : List Int
  posts : List Post
  link : Option String
  feedVar : Option Submission
  dispatch : List Dispatch
deriving DecidableEq

/-- `RedditMM.format_send` (lines 726-868): truncate to the first candidate
when `settings.get("latest", True)`, resolve the webhook, run the filter
loop, dispatch the admitted posts oldest first, and return `timestamps[0]`
when any timestamp was recorded, else `None`. -/
def format_send (ext : PyExt) (data : List Submission) (ch : Chan) (last_post : Int)
    (subreddit : String) (settings : Settings) (db : DB) : FSResult :=
  let data1 := if truthyV (settingsGetD settings "latest" (SettVal.b true)) then
      data.take 1 else data
  let webhookOn := truthyV (settingsGetD settings "webhooks" (SettVal.b false))
      && ch.canWebhook
  let st := filterLoop ext ch last_post subreddit settings data1
      ⟨[], [], db, none, none⟩
  let dispatch := if st.timestamps.isEmpty || st.posts.isEmpty then []
    else st.posts.reverse.map (mkDispatchItem ext settings webhookOn st)
  { ret := st.timestamps.head?, db := st.db, timestamps := st.timestamps,
    posts := st.posts, link := st.link, feedVar := st.feedVar,
    dispatch := dispatch }

/-- One per-channel feed configuration entry from the Red config store, with
exactly the keys the cog reads via `feed.get(...)` (absent keys are `none`;
`subreddit` may also be stored as Python `None`). -/
structure FeedCfg where
  subreddit : Option String
  last_post : Int
  latest : Option Bool
  webhooks : Option Bool
  logo : Option String
  image_only : Option Bool
  source_button : Option Bool
  publish : Option Bool
deriving DecidableEq

/-- The settings dictionary `do_feeds` builds for `format_send`
(lines 264-272 of `redditmm.py`).  Note the logo is stored under the key
`"logo"`; no `"icon"` key is ever written. -/
def mkSettings (cfg : FeedCfg) : Settings :=
  [("latest", SettVal.b (cfg.latest.getD true)),
   ("webhooks", SettVal.b (cfg.webhooks.getD false)),
   ("logo", SettVal.s (cfg.logo.getD REDDIT_LOGO)),
   ("image_only", SettVal.b (cfg.image_only.getD false)),
   ("source_button", SettVal.b (cfg.source_button.getD false)),
   ("publish", SettVal.b (cfg.publish.getD false))]

/-- The settings dictionary the `force` command builds for `format_send`
(lines 549-556 of `redditmm.py`); again the logo is keyed `"logo"`. -/
def forceSettings (cfg : FeedCfg) : Settings :=
  [("latest", SettVal.b true),
   ("webhooks", SettVal.b (cfg.webhooks.getD false)),
   ("logo", SettVal.s (cfg.logo.getD REDDIT_LOGO)),
   ("image_only", SettVal.b false),
   ("source_button", SettVal.b false),
   ("publish", SettVal.b false)]

/-- One entry of `config.all_channels()` as consumed by `do_feeds`:
`resolved` is `bot.get_channel(channel_id)` (`none` when the channel cannot
be resolved, in which case the entry is skipped), and `reddits` the
per-subreddit feed dictionaries. -/
structure ChannelEntry where
  resolved : Option Chan
  reddits : List (String × FeedCfg)

/-- The tick-local state of one `do_feeds` call: the fetch cache `feeds`,
the ordered log of feed names actually fetched this tick, the store state,
and the cursor writes performed (`feeds_data[sub]["last_post"] = time`). -/
structure TickState where
  feeds : List (String × Option (List Submission))
  fetchLog : List String
  db : DB
  cursorWrites : List (String × Int)

/-- Lines 258-276 of `redditmm.py`: what `do_feeds` does with a fetch
response for one subscriber — skip on `None`, else run `format_send` and
persist the returned cursor when it is not `None`. -/
def dispatchResp (ext : PyExt) (ch : Chan) (sub : String) (url : String)
    (cfg : FeedCfg) (st : TickState) : Option (List Submission) → TickState
  | none => st
  | some data =>
    let r := format_send ext data ch cfg.last_post url (mkSettings cfg) st.db
    { st with
      db := r.db,
      cursorWrites := st.cursorWrites ++
        (match r.ret with | some t => [(sub, t)] | none => []) }

/-- Lines 249-276 of `redditmm.py`: one subscriber of the inner loop of
`do_feeds`.  A missing or falsy subreddit name is skipped; the tick-local
map `feeds` is consulted before fetching, and a fresh fetch result
(including `None`) is stored in it. -/
def processSub (ext : PyExt) (fetch : String → Option (List Submission))
    (ch : Chan) (sub : String) (cfg : FeedCfg) (st : TickState) : TickState :=
  match cfg.subreddit with
  | none => st
  | some url =>
    if url.isEmpty then st
    else
      match st.feeds.find? (fun p => p.1 == url) with
      | some p => dispatchResp ext ch sub url cfg st p.2
      | none =>
        let response := fetch url
        dispatchResp ext ch sub url cfg
          { st with
            feeds := st.feeds ++ [(url, response)],
            fetchLog := st.fetchLog ++ [url] }
          response

/-- `RedditMM.do_feeds` (lines 240-276): iterate all channels and their
subscriptions, fetching each unique feed name at most once per tick through
the tick-local `feeds` map.  `fetch` is the external `fetch_feed` adapter
for this tick. -/
def do_feeds (ext : PyExt) (fetch : String → Option (List Submission))
    (entries : List ChannelEntry) (db : DB) : TickState :=
  entries.foldl
    (fun st entry =>
      match entry.resolved with
      | none => st
      | some ch => entry.reddits.foldl (fun s p => processSub ext fetch ch p.1 p.2 s) st)
    ⟨[], [], db, []⟩

/-- The module-level names bound in `redditmm.py` (its imports and its
top-level definitions).  Neither `get_message_redditor` (a method of the
`RedditMM` class) nor anything else resolving that identifier is among
them. -/
def module_globals : List String :=
  ["os", "asyncio", "logging", "re", "datetime", "timedelta", "unescape",
   "Optional", "aiohttp", "asyncpraw", "asyncprawcore", "discord", "tabulate",
   "validators", "sqlite3", "Route", "Config", "data_manager", "app_commands",
   "commands", "TimedeltaConverter", "box", "humanize_timedelta", "pagify",
   "spoiler", "log", "REDDIT_LOGO", "REDDIT_REGEX", "PosterView", "RedditMMDB",
   "RedditMM"]

/-- The ❌ branch of `on_reaction_add` (lines 328-343 of `redditmm.py`),
reached when the guard checks passed and the reaction emoji is ❌.  Its
first statement is `redditor = get_message_redditor(reaction.message)`,
an unqualified call: the name must resolve at module level, and it does
not (the function is only defined as a method).  The returned string is
the reaction the handler adds to the message in response. -/
def on_reaction_add_x (db : DB) : Except PyErr String × DB :=
  match pyName module_globals "get_message_redditor" with
  | Except.error e => (Except.error e, db)
  | Except.ok _ =>
    -- Unreachable: the identifier is not bound at module level, so the
    -- statements after it (the unawaited coroutine guards and the
    -- `add_ignored_redditor` call) are never executed.
    (Except.ok "", db)

/-- The ❌ branch of `on_reaction_remove` (lines 368-384 of `redditmm.py`):
its first statement is the same unqualified
`get_message_redditor(reaction.message)` call. -/
def on_reaction_remove_x (db : DB) : Except PyErr String × DB :=
  match pyName module_globals "get_message_redditor" with
  | Except.error e => (Except.error e, db)
  | Except.ok _ =>
    -- Unreachable, as in `on_reaction_add_x`.
    (Except.ok "", db)

end RedditMM

namespace RedditMMDB

/-- A row of the `seen_urls` table as created by
`redditmmdb.py prepare_seen_urls_table`, which declares
`CONSTRAINT UC_GuildURL UNIQUE (guildID, url)`.  The `id` column is the
autoincrement primary key. -/
structure SeenRow where
  id : Nat
  guildID : Int
  url : String
deriving DecidableEq

/-- A row of the `ignored_redditors` table
(`CONSTRAINT UC_GuildRedditor UNIQUE (guildID, redditor)`). -/
structure IgnRow where
  id : Nat
  guildID : Int
  redditor : String
deriving DecidableEq

/-- A row of the `favorites` table
(`CONSTRAINT UC_GuildRedditorURLUser UNIQUE (guildID, redditor, url, userID)`). -/
structure FavRow where
  id : Nat
  guildID : Int
  userID : Int
  redditor : String
  url : String
deriving DecidableEq

/-- The module-level names bound in `redditmmdb.py`: its four imports and
the class.  `log` is never assigned in this module. -/
def module_globals : List String :=
  ["os", "asyncio", "logging", "sqlite3", "RedditMMDB"]

/-- The body of every `except (sqlite3.DatabaseError)` handler in
`redditmmdb.py`: `log.error(...)` followed by `return None`.  Because `log`
is not bound at module level, evaluating `log.error` raises `NameError`
out of the handler; only if it were bound would the handler return `None`. -/
def dbErrHandler {α : Type} (ret : Option α) : Except PyErr (Option α) :=
  match pyName module_globals "log" with
  | Except.error e => Except.error e
  | Except.ok _ => Except.ok ret

/-- `redditmmdb.py get_seen_url` (lines 70-83): select the row id for
`(guildID, url)`, returning `None` when absent; a storage-engine fault
(`engineFault`) raises `sqlite3.DatabaseError`, which lands in the
handler. -/
def get_seen_url (db : List SeenRow) (guildID : Int) (url : String)
    (engineFault : Bool) : Except PyErr (Option Nat) :=
  if engineFault then dbErrHandler none
  else Except.ok ((db.find? fun r => r.guildID == guildID && r.url == url).map SeenRow.id)

/-- `redditmmdb.py add_seen_url` (lines 85-99): `INSERT INTO seen_urls`.
A duplicate `(guildID, url)` violates `UC_GuildURL`, raising
`sqlite3.IntegrityError` (a `DatabaseError`), which lands in the handler
and leaves the table unchanged; a successful insert returns the rowcount 1. -/
def add_seen_url (db : List SeenRow) (guildID : Int) (url : String)
    (engineFault : Bool) : Except PyErr (Option Nat) × List SeenRow :=
  if engineFault then (dbErrHandler none, db)
  else if db.any fun r => r.guildID == guildID && r.url == url then
    (dbErrHandler none, db)
  else (Except.ok (some 1), db ++ [{ id := db.length, guildID := guildID, url := url }])

/-- `redditmmdb.py get_ignored_redditor` (lines 106-119). -/
def get_ignored_redditor (db : List IgnRow) (guildID : Int) (redditor : String)
    (engineFault : Bool) : Except PyErr (Option Nat) :=
  if engineFault then dbErrHandler none
  else Except.ok ((db.find? fun r => r.guildID == guildID && r.redditor == redditor).map IgnRow.id)

/-- `redditmmdb.py add_ignored_redditor` (lines 138-152); duplicates violate
`UC_GuildRedditor`. -/
def add_ignored_redditor (db : List IgnRow) (guildID : Int) (redditor : String)
    (engineFault : Bool) : Except PyErr (Option Nat) × List IgnRow :=
  if engineFault then (dbErrHandler none, db)
  else if db.any fun r => r.guildID == guildID && r.redditor == redditor then
    (dbErrHandler none, db)
  else (Except.ok (some 1), db ++ [{ id := db.length, guildID := guildID, redditor := redditor }])

/-- `redditmmdb.py del_ignored_redditor` (lines 154-170): delete matching
rows, returning the count deleted, mapped to `None` when zero. -/
def del_ignored_redditor (db : List IgnRow) (guildID : Int) (redditor : String)
    (engineFault : Bool) : Except PyErr (Option Nat) × List IgnRow :=
  if engineFault then (dbErrHandler none, db)
  else
    let remaining := db.filter fun r => !(r.guildID == guildID && r.redditor == redditor)
    let cnt := db.length - remaining.length
    (Except.ok (if cnt = 0 then none else some cnt), remaining)

/-- The conjunctive optional filters of the favorites queries. -/
def favMatch (guildID : Int) (redditor : String) (url? : Option String)
    (userID? : Option Int) (x : FavRow) : Bool :=
  x.guildID == guildID && x.redditor == redditor
    && (match url? with | none => true | some u => x.url == u)
    && (match userID? with | none => true | some uid => x.userID == uid)

/-- `redditmmdb.py get_favorite` (lines 176-196): `SELECT count(id)` with
optional url/user filters; a zero count is returned as `None`. -/
def get_favorite (db : List FavRow) (guildID : Int) (redditor : String)
    (url? : Option String) (userID? : Option Int)
    (engineFault : Bool) : Except PyErr (Option Nat) :=
  if engineFault then dbErrHandler none
  else
    let cnt := (db.filter (favMatch guildID redditor url? userID?)).length
    Except.ok (if cnt = 0 then none else some cnt)

/-- `redditmmdb.py add_favorite` (lines 198-212); duplicates violate
`UC_GuildRedditorURLUser`. -/
def add_favorite (db : List FavRow) (guildID : Int) (redditor : String)
    (url : String) (userID : Int)
    (engineFault : Bool) : Except PyErr (Option Nat) × List FavRow :=
  if engineFault then (dbErrHandler none, db)
  else if db.any fun x =>
      x.guildID == guildID && x.redditor == redditor && x.url == url && x.userID == userID then
    (dbErrHandler none, db)
  else
    (Except.ok (some 1),
     db ++ [{ id := db.length, guildID := guildID, userID := userID,
              redditor := redditor, url := url }])

/-- `redditmmdb.py del_favorite` (lines 214-237). -/
def del_favorite (db : List FavRow) (guildID : Int) (redditor : String)
    (url? : Option String) (userID? : Option Int)
    (engineFault : Bool) : Except PyErr (Option Nat) × List FavRow :=
  if engineFault then (dbErrHandler none, db)
  else
    let remaining := db.filter fun x => !(favMatch guildID redditor url? userID? x)
    let cnt := db.length - remaining.length
    (Except.ok (if cnt = 0 then none else some cnt), remaining)

/-- A sequence of `add_seen_url` calls applied to a `seen_urls` table
state: each element is `(guildID, url, engineFault)`. -/
def applyAdds (ops : List (Int × String × Bool)) (db : List SeenRow) : List SeenRow :=
  ops.foldl (fun d op => (add_seen_url d op.1 op.2.1 op.2.2).2) db

end RedditMMDB

/-! ### Shared lemmas about the filter loop -/

namespace RedditMM

/-- Every timestamp recorded by the filter loop on a batch containing no
candidate that triggers the adult-content skip is strictly newer than the
input cursor. -/
theorem filterLoop_timestamps_gt (ext : PyExt) (ch : Chan) (lp : Int) (sub : String)
    (settings : Settings) :
    ∀ (data : List Submission) (st : LoopState),
      (∀ f ∈ data, (f.over_18 && !ch.nsfw) = false) →
      (∀ x ∈ st.timestamps, lp < x) →
      ∀ x ∈ (filterLoop ext ch lp sub settings data st).timestamps, lp < x := by
  intro data
  induction data with
  | nil => intro st _ hst; simpa [filterLoop] using hst
  | cons f rest ih =>
    intro st hdata hst
    have hf : (f.over_18 && !ch.nsfw) = false := hdata f (List.mem_cons_self _ _)
    have hrest : ∀ g ∈ rest, (g.over_18 && !ch.nsfw) = false :=
      fun g hg => hdata g (List.mem_cons_of_mem _ hg)
    rw [filterLoop, if_neg (by simp [hf])]
    by_cases hb : f.created_utc ≤ lp
    · rw [if_pos hb]
      simpa using hst
    · rw [if_neg hb]
      have hlt : lp < f.created_utc := not_le.mp hb
      have hst1 : ∀ x ∈ st.timestamps ++ [f.created_utc], lp < x := by
        intro x hx
        rcases List.mem_append.mp hx with h | h
        · exact hst x h
        · simpa using (List.mem_singleton.mp h) ▸ hlt
      by_cases hi :
          (get_ignored_redditor st.db ch.guildId (ext.unescape f.authorName)).isSome
      · simp only [hi, if_true]
        exact ih _ hrest hst1
      · simp only [hi, if_false, Bool.false_eq_true]
        by_cases hs : (get_seen_url st.db ch.guildId f.url).isSome
        · simp only [hs, if_true]
          exact ih _ hrest hst1
        · simp only [hs, if_false, Bool.false_eq_true]
          by_cases him :
              (truthyO (settingsGet? settings "image_only")
                && !(buildPost ext sub f ("https://reddit.com" ++ f.permalink)).2) = true
          · rw [if_pos him]
            exact ih _ hrest hst1
          · rw [if_neg him]
            exact ih _ hrest hst1

end RedditMM

namespace RedditMM

/-- Embeds built by `buildPost` always carry the candidate's own
`created_utc` as their timestamp (line 791 of `redditmm.py`). -/
theorem buildPost_timestamp (ext : PyExt) (sub : String) (f : Submission) (link : String) :
    ∀ e ∈ (buildPost ext sub f link).1.embeds, e.timestamp = f.created_utc := by
  intro e he
  simp only [buildPost] at he
  rw [List.mem_singleton] at he
  subst he
  repeat' split
  all_goals rfl

/-- Every post admitted by the filter loop carries embed timestamps
strictly newer than the input cursor (the break check
`if timestamp <= last_post: break` precedes admission). -/
theorem filterLoop_posts_timestamp_gt (ext : PyExt) (ch : Chan) (lp : Int) (sub : String)
    (settings : Settings) :
    ∀ (data : List Submission) (st : LoopState),
      (∀ p ∈ st.posts, ∀ e ∈ p.embeds, lp < e.timestamp) →
      ∀ p ∈ (filterLoop ext ch lp sub settings data st).posts,
        ∀ e ∈ p.embeds, lp < e.timestamp := by
  intro data
  induction data with
  | nil => intro st hst; simpa [filterLoop] using hst
  | cons f rest ih =>
    intro st hst
    rw [filterLoop]
    by_cases ha : (f.over_18 && !ch.nsfw) = true
    · rw [if_pos ha]
      exact ih _ (by simpa using hst)
    · rw [if_neg ha]
      by_cases hb : f.created_utc ≤ lp
      · rw [if_pos hb]
        simpa using hst
      · rw [if_neg hb]
        have hlt : lp < f.created_utc := not_le.mp hb
        by_cases hi :
            (get_ignored_redditor st.db ch.guildId (ext.unescape f.authorName)).isSome
        · simp only [hi, if_true]
          exact ih _ (by simpa using hst)
        · simp only [hi, if_false, Bool.false_eq_true]
          by_cases hs : (get_seen_url st.db ch.guildId f.url).isSome
          · simp only [hs, if_true]
            exact ih _ (by simpa using hst)
          · simp only [hs, if_false, Bool.false_eq_true]
            by_cases him :
                (truthyO (settingsGet? settings "image_only")
                  && !(buildPost ext sub f ("https://reddit.com" ++ f.permalink)).2) = true
            · rw [if_pos him]
              exact ih _ (by simpa using hst)
            · rw [if_neg him]
              refine ih _ ?_
              intro p hp e hep
              simp only [List.mem_append] at hp
              rcases hp with hp | hp
              · exact hst p (by simpa using hp) e hep
              · rw [List.mem_singleton] at hp
                subst hp
                rw [buildPost_timestamp ext sub f _ e hep]
                exact hlt

end RedditMM

namespace RedditMM

/-- C1 counterexample.  Batch of a single over-18 candidate with
`created_utc = 10`, posted to a non-NSFW channel, input cursor 50: the
adult-content branch appends the timestamp before the cursor break check,
so `format_send` returns the cursor 10, which is smaller than the input
cursor 50 — the caller `do_feeds` then persists 10, moving the cursor
backwards.  This refutes the claim that the returned cursor is always
greater than or equal to the input cursor. -/
theorem C1_counterexample :
    (format_send ⟨fun s => s, fun _ => false⟩
        [⟨10, true, "x", "u10", "/p10", "", "t", false, "s"⟩]
        ⟨1, false, false⟩ 50 "s" [("latest", SettVal.b true)] ⟨[], []⟩).ret = some 10
      ∧ (10 : Int) < 50 := by
  constructor
  · decide
  · decide

/-- C1 (amended): if no candidate of the batch triggers the adult-content
skip (it is not over-18, or the channel is NSFW), then whenever
`format_send` returns a cursor at all, that cursor is strictly greater than
the input cursor.  (The unamended claim fails only through the adult-skip
branch, which records a timestamp before the cursor break check — see
`C1_counterexample`.) -/
theorem C1_cursor_monotone_amended (ext : PyExt) (data : List Submission) (ch : Chan)
    (lp : Int) (sub : String) (settings : Settings) (db : DB)
    (hdata : ∀ f ∈ data, (f.over_18 && !ch.nsfw) = false) :
    ∀ t, (format_send ext data ch lp sub settings db).ret = some t → lp < t := by
  intro t hret
  have hmem : ∀ f ∈ (if truthyV (settingsGetD settings "latest" (SettVal.b true)) then
      data.take 1 else data), (f.over_18 && !ch.nsfw) = false := by
    intro f hf
    apply hdata
    revert hf
    split
    · exact fun hf => List.take_subset _ _ hf
    · exact fun hf => hf
  have key := filterLoop_timestamps_gt ext ch lp sub settings
    (if truthyV (settingsGetD settings "latest" (SettVal.b true)) then data.take 1 else data)
    ⟨[], [], db, none, none⟩ hmem (by intro x hx; simp at hx)
  have hret2 : (filterLoop ext ch lp sub settings
      (if truthyV (settingsGetD settings "latest" (SettVal.b true)) then data.take 1 else data)
      ⟨[], [], db, none, none⟩).timestamps.head? = some t := by
    simpa [format_send] using hret
  apply key
  cases hts : (filterLoop ext ch lp sub settings
      (if truthyV (settingsGetD settings "latest" (SettVal.b true)) then data.take 1 else data)
      ⟨[], [], db, none, none⟩).timestamps with
  | nil => rw [hts] at hret2; simp at hret2
  | cons a l =>
    rw [hts] at hret2
    simp only [List.head?_cons, Option.some.injEq] at hret2
    rw [← hret2]
    exact List.mem_cons_self _ _

/-- C1 witness: a single fresh candidate at timestamp 60 against cursor 50,
no adult-content skip; the amended theorem yields 50 < 60. -/
theorem C1_witness :
    (format_send ⟨fun s => s, fun _ => false⟩
        [⟨60, false, "x", "u60", "/p60", "", "t", false, "s"⟩]
        ⟨1, false, false⟩ 50 "s" [("latest", SettVal.b true)] ⟨[], []⟩).ret = some 60
      ∧ (50 : Int) < 60 := by
  refine ⟨by decide, ?_⟩
  exact C1_cursor_monotone_amended ⟨fun s => s, fun _ => false⟩
    [⟨60, false, "x", "u60", "/p60", "", "t", false, "s"⟩]
    ⟨1, false, false⟩ 50 "s" [("latest", SettVal.b true)] ⟨[], []⟩
    (by decide) 60 (by decide)

end RedditMM

namespace RedditMM

/-- C4 counterexample.  Batch of two over-18 candidates at timestamps 40
and 30 (ordered newest-first), non-NSFW channel, cursor 50: the first
candidate already satisfies `createdAt <= lastCursor`, so by the claim the
scan should stop entirely at it, making the run over both candidates
indistinguishable from the run over the first alone.  Instead the
adult-content skip fires before the break check, the scan continues, and
the second candidate's timestamp is also recorded (and `format_send`
returns the stale cursor 40). -/
theorem C4_counterexample :
    (40 : Int) ≤ 50 ∧ (30 : Int) ≤ (40 : Int)
      ∧ (format_send ⟨fun s => s, fun _ => false⟩
          [⟨40, true, "x", "u40", "/p40", "", "t", false, "s"⟩,
           ⟨30, true, "x", "u30", "/p30", "", "t", false, "s"⟩]
          ⟨1, false, false⟩ 50 "s" [("latest", SettVal.b false)] ⟨[], []⟩).timestamps
        = [40, 30]
      ∧ (format_send ⟨fun s => s, fun _ => false⟩
          [⟨40, true, "x", "u40", "/p40", "", "t", false, "s"⟩]
          ⟨1, false, false⟩ 50 "s" [("latest", SettVal.b false)] ⟨[], []⟩).timestamps
        = [40] := by
  refine ⟨by decide, by decide, by decide, by decide⟩

/-- C4 (amended): a candidate with `createdAt == lastCursor` (more
generally, `createdAt <= lastCursor`) is never admitted — every admitted
post's embed timestamp is strictly greater than the cursor — and the scan
stops entirely at the first candidate with `createdAt <= lastCursor`
*that is not diverted by the adult-content skip*: for such a candidate the
loop discards the rest of the batch unexamined.  (An over-18 candidate in
a non-NSFW channel at or below the cursor is skipped without stopping the
scan — see `C4_counterexample`.) -/
theorem C4_boundary_amended (ext : PyExt) (data : List Submission) (ch : Chan)
    (lp : Int) (sub : String) (settings : Settings) (db : DB) :
    (∀ p ∈ (format_send ext data ch lp sub settings db).posts,
       ∀ e ∈ p.embeds, lp < e.timestamp)
      ∧ (∀ (f : Submission) (rest : List Submission) (st : LoopState),
          (f.over_18 && !ch.nsfw) = false → f.created_utc ≤ lp →
          filterLoop ext ch lp sub settings (f :: rest) st
            = { st with feedVar := some f }) := by
  constructor
  · have key := filterLoop_posts_timestamp_gt ext ch lp sub settings
      (if truthyV (settingsGetD settings "latest" (SettVal.b true)) then data.take 1 else data)
      ⟨[], [], db, none, none⟩ (by intro p hp; simp at hp)
    intro p hp
    apply key
    simpa [format_send] using hp
  · intro f rest st hf hb
    rw [filterLoop, if_neg (by simp [hf]), if_pos hb]

/-- C4 witness: cursor 50 and a single fresh candidate at timestamp 60 —
the admitted post's embed timestamp 60 is strictly above the cursor; and a
non-adult candidate at timestamp 40 ≤ 50 makes the loop return the break
state immediately, discarding the rest of the batch. -/
theorem C4_witness :
    (50 : Int) <
      (((format_send ⟨fun s => s, fun _ => false⟩
          [⟨60, false, "x", "u60", "/p60", "", "t", false, "s"⟩]
          ⟨1, false, false⟩ 50 "s" [("latest", SettVal.b true)] ⟨[], []⟩).posts.head?.getD
            ⟨"", none, []⟩).embeds.head?.getD
              ⟨"", "", "", 0, "", "", none, []⟩).timestamp
      ∧ filterLoop ⟨fun s => s, fun _ => false⟩ ⟨1, false, false⟩ 50 "s"
          [("latest", SettVal.b true)]
          [⟨40, false, "x", "u40", "/p40", "", "t", false, "s"⟩,
           ⟨99, false, "y", "u99", "/p99", "", "t", false, "s"⟩]
          ⟨[], [], ⟨[], []⟩, none, none⟩
        = { (⟨[], [], ⟨[], []⟩, none, none⟩ : LoopState) with
            feedVar := some ⟨40, false, "x", "u40", "/p40", "", "t", false, "s"⟩ } := by
  constructor
  · exact (C4_boundary_amended ⟨fun s => s, fun _ => false⟩
      [⟨60, false, "x", "u60", "/p60", "", "t", false, "s"⟩]
      ⟨1, false, false⟩ 50 "s" [("latest", SettVal.b true)] ⟨[], []⟩).1
      ((format_send ⟨fun s => s, fun _ => false⟩
          [⟨60, false, "x", "u60", "/p60", "", "t", false, "s"⟩]
          ⟨1, false, false⟩ 50 "s" [("latest", SettVal.b true)] ⟨[], []⟩).posts.head?.getD
        ⟨"", none, []⟩)
      (by decide)
      (((format_send ⟨fun s => s, fun _ => false⟩
          [⟨60, false, "x", "u60", "/p60", "", "t", false, "s"⟩]
          ⟨1, false, false⟩ 50 "s" [("latest", SettVal.b true)] ⟨[], []⟩).posts.head?.getD
        ⟨"", none, []⟩).embeds.head?.getD ⟨"", "", "", 0, "", "", none, []⟩)
      (by decide)
  · exact (C4_boundary_amended ⟨fun s => s, fun _ => false⟩ []
      ⟨1, false, false⟩ 50 "s" [("latest", SettVal.b true)] ⟨[], []⟩).2
      ⟨40, false, "x", "u40", "/p40", "", "t", false, "s"⟩
      [⟨99, false, "y", "u99", "/p99", "", "t", false, "s"⟩]
      ⟨[], [], ⟨[], []⟩, none, none⟩ (by decide) (by decide)

end RedditMM

/-- `List.findIdx?` finds an index exactly when some element satisfies the
predicate. -/
theorem findIdx?_isSome_eq_any {α : Type} (p : α → Bool) :
    ∀ (l : List α) (i : Nat), (List.findIdx? p l i).isSome = l.any p := by
  intro l
  induction l with
  | nil => intro i; simp [List.findIdx?]
  | cons a l ih =>
    intro i
    rw [List.findIdx?]
    by_cases h : p a = true
    · simp [h]
    · simp only [h, if_false, Bool.false_eq_true, List.any_cons, Bool.false_or]
      exact ih (i + 1)

namespace RedditMM

/-- The seen-url check of the pipeline is a membership test on the
`seen_urls` rows. -/
theorem get_seen_url_isSome (db : DB) (g : Int) (u : String) :
    (get_seen_url db g u).isSome = db.seen.any fun r => r.1 == g && r.2 == u := by
  unfold get_seen_url
  exact findIdx?_isSome_eq_any _ _ 0

/-- The ignored-author check depends only on the `ignored_redditors` rows. -/
theorem get_ignored_redditor_congr (db db' : DB) (g : Int) (r : String)
    (h : db'.ignored = db.ignored) :
    get_ignored_redditor db' g r = get_ignored_redditor db g r := by
  unfold get_ignored_redditor
  rw [h]

/-- The filter loop never touches the `ignored_redditors` rows and only
appends to the `seen_urls` rows. -/
theorem filterLoop_db_extends (ext : PyExt) (ch : Chan) (lp : Int) (sub : String)
    (settings : Settings) :
    ∀ (data : List Submission) (st : LoopState),
      (filterLoop ext ch lp sub settings data st).db.ignored = st.db.ignored
        ∧ ∃ l, (filterLoop ext ch lp sub settings data st).db.seen = st.db.seen ++ l := by
  intro data
  induction data with
  | nil => intro st; exact ⟨rfl, [], by simp [filterLoop]⟩
  | cons f rest ih =>
    intro st
    rw [filterLoop]
    by_cases ha : (f.over_18 && !ch.nsfw) = true
    · rw [if_pos ha]
      exact ih _
    · rw [if_neg ha]
      by_cases hb : f.created_utc ≤ lp
      · rw [if_pos hb]
        exact ⟨rfl, [], by simp⟩
      · rw [if_neg hb]
        by_cases hi :
            (get_ignored_redditor st.db ch.guildId (ext.unescape f.authorName)).isSome
        · simp only [hi, if_true]
          exact ih _
        · simp only [hi, if_false, Bool.false_eq_true]
          by_cases hs : (get_seen_url st.db ch.guildId f.url).isSome
          · simp only [hs, if_true]
            exact ih _
          · simp only [hs, if_false, Bool.false_eq_true]
            by_cases him :
                (truthyO (settingsGet? settings "image_only")
                  && !(buildPost ext sub f ("https://reddit.com" ++ f.permalink)).2) = true
            · rw [if_pos him]
              exact ih _
            · rw [if_neg him]
              rcases ih { (⟨st.timestamps ++ [f.created_utc], st.posts, st.db, st.link,
                  some f⟩ : LoopState) with
                  link := some ("https://reddit.com" ++ f.permalink),
                  posts := st.posts ++
                    [(buildPost ext sub f ("https://reddit.com" ++ f.permalink)).1],
                  db := add_seen_url st.db ch.guildId f.url } with ⟨h1, l, h2⟩
              refine ⟨h1, (ch.guildId, f.url) :: l, ?_⟩
              rw [h2]
              simp [add_seen_url]

/-- Membership in the `seen_urls` rows is preserved by running the filter
loop. -/
theorem filterLoop_seen_any_mono (ext : PyExt) (ch : Chan) (lp : Int) (sub : String)
    (settings : Settings) (data : List Submission) (st : LoopState)
    (p : Int × String → Bool) (h : st.db.seen.any p = true) :
    (filterLoop ext ch lp sub settings data st).db.seen.any p = true := by
  rcases (filterLoop_db_extends ext ch lp sub settings data st).2 with ⟨l, hl⟩
  rw [hl, List.any_append, h, Bool.true_or]

end RedditMM

namespace RedditMM

/-- Second-run lemma: if the `ignored_redditors` rows of `st'` agree with
those of `st`, and every seen url reachable by running the filter loop on
`data` from `st` is already seen in `st'`, then running the loop on the
same `data` from `st'` admits no post. -/
theorem filterLoop_second_run_posts (ext : PyExt) (ch : Chan) (lp : Int) (sub : String)
    (settings : Settings) :
    ∀ (data : List Submission) (st st' : LoopState),
      st'.db.ignored = st.db.ignored →
      (∀ u : String,
        ((filterLoop ext ch lp sub settings data st).db.seen.any
          fun r => r.1 == ch.guildId && r.2 == u) = true →
        (st'.db.seen.any fun r => r.1 == ch.guildId && r.2 == u) = true) →
      (filterLoop ext ch lp sub settings data st').posts = st'.posts := by
  intro data
  induction data with
  | nil => intro st st' _ _; simp [filterLoop]
  | cons f rest ih =>
    intro st st' hIgn hSeen
    have hSeen0 := hSeen
    rw [filterLoop]
    by_cases ha : (f.over_18 && !ch.nsfw) = true
    · rw [if_pos ha]
      rw [filterLoop, if_pos ha] at hSeen
      exact ih ⟨st.timestamps ++ [f.created_utc], st.posts, st.db, st.link, some f⟩ _ hIgn hSeen
    · rw [if_neg ha]
      by_cases hb : f.created_utc ≤ lp
      · rw [if_pos hb]
      · rw [if_neg hb]
        have hIgnEq := get_ignored_redditor_congr st.db st'.db ch.guildId
          (ext.unescape f.authorName) hIgn
        rw [filterLoop, if_neg ha, if_neg hb] at hSeen
        by_cases hi :
            (get_ignored_redditor st.db ch.guildId (ext.unescape f.authorName)).isSome
        · simp only [hIgnEq, hi, if_true]
          simp only [hi, if_true] at hSeen
          exact ih ⟨st.timestamps ++ [f.created_utc], st.posts, st.db, st.link, some f⟩ _ hIgn hSeen
        · simp only [hIgnEq, hi, if_false, Bool.false_eq_true]
          simp only [hi, if_false, Bool.false_eq_true] at hSeen
          by_cases hs2 : (get_seen_url st'.db ch.guildId f.url).isSome
          · simp only [hs2, if_true]
            by_cases hs1 : (get_seen_url st.db ch.guildId f.url).isSome
            · simp only [hs1, if_true] at hSeen
              exact ih ⟨st.timestamps ++ [f.created_utc], st.posts, st.db, st.link, some f⟩ _ hIgn hSeen
            · simp only [hs1, if_false, Bool.false_eq_true] at hSeen
              by_cases him :
                  (truthyO (settingsGet? settings "image_only")
                    && !(buildPost ext sub f ("https://reddit.com" ++ f.permalink)).2) = true
              · rw [if_pos him] at hSeen
                exact ih ⟨st.timestamps ++ [f.created_utc], st.posts, st.db, some ("https://reddit.com" ++ f.permalink), some f⟩ _ hIgn hSeen
              · rw [if_neg him] at hSeen
                exact ih ⟨st.timestamps ++ [f.created_utc], st.posts ++ [(buildPost ext sub f ("https://reddit.com" ++ f.permalink)).1], add_seen_url st.db ch.guildId f.url, some ("https://reddit.com" ++ f.permalink), some f⟩ _ hIgn hSeen
          · have hs1 : ¬(get_seen_url st.db ch.guildId f.url).isSome = true := by
              intro h1
              apply hs2
              rw [get_seen_url_isSome] at h1
              rw [get_seen_url_isSome]
              exact hSeen0 f.url
                (filterLoop_seen_any_mono ext ch lp sub settings (f :: rest) st _ h1)
            simp only [hs2, if_false, Bool.false_eq_true]
            simp only [hs1, if_false, Bool.false_eq_true] at hSeen
            by_cases him :
                (truthyO (settingsGet? settings "image_only")
                  && !(buildPost ext sub f ("https://reddit.com" ++ f.permalink)).2) = true
            · rw [if_pos him]
              rw [if_pos him] at hSeen
              exact ih ⟨st.timestamps ++ [f.created_utc], st.posts, st.db, some ("https://reddit.com" ++ f.permalink), some f⟩ _ hIgn hSeen
            · exfalso
              rw [if_neg him] at hSeen
              apply hs2
              rw [get_seen_url_isSome]
              apply hSeen f.url
              apply filterLoop_seen_any_mono
              simp [add_seen_url]

end RedditMM

namespace RedditMM

/-- C5: pipeline idempotence.  Running `format_send` a second time on the
identical batch, channel, cursor and settings, starting from the store
state the first run left behind, admits no post: every url admitted by the
first run was marked seen by `add_seen_url` at admission time, and the
`get_seen_url` check rejects it on the second run. -/
theorem C5_pipeline_idempotent (ext : PyExt) (data : List Submission) (ch : Chan)
    (lp : Int) (sub : String) (settings : Settings) (db : DB) :
    (format_send ext data ch lp sub settings
      (format_send ext data ch lp sub settings db).db).posts = [] := by
  have key := filterLoop_second_run_posts ext ch lp sub settings
    (if truthyV (settingsGetD settings "latest" (SettVal.b true)) then data.take 1 else data)
    ⟨[], [], db, none, none⟩
    ⟨[], [], (filterLoop ext ch lp sub settings
        (if truthyV (settingsGetD settings "latest" (SettVal.b true)) then data.take 1 else data)
        ⟨[], [], db, none, none⟩).db, none, none⟩
    ((filterLoop_db_extends ext ch lp sub settings _ _).1)
    (fun u hu => hu)
  simpa [format_send] using key

end RedditMM

namespace RedditMM

/-- C9 (amended): every delivery dispatched by one `format_send` call reads
its "Source"-button URL from the single final value of the loop variable
`link` (the link of the last candidate that passed the timestamp, ignore
and seen checks), and every webhook delivery builds its username from the
final value of the loop variable `feed` (the last candidate examined) —
not from the post actually being sent. -/
theorem C9_source_from_final_loop_vars (ext : PyExt) (data : List Submission) (ch : Chan)
    (lp : Int) (sub : String) (settings : Settings) (db : DB) (d : Dispatch)
    (hd : d ∈ (format_send ext data ch lp sub settings db).dispatch) :
    (∀ u ∈ d.sourceUrls,
        u = (format_send ext data ch lp sub settings db).link.getD "")
      ∧ (∀ un av e, d = Dispatch.hook un av e →
          ∃ a, un = "r/"
            ++ feedVarSubreddit (format_send ext data ch lp sub settings db).feedVar
            ++ " (u/" ++ a ++ ")") := by
  simp only [format_send] at hd ⊢
  set st := filterLoop ext ch lp sub settings
      (if truthyV (settingsGetD settings "latest" (SettVal.b true)) = true then
        data.take 1 else data)
      ⟨[], [], db, none, none⟩ with hst
  split at hd
  · simp at hd
  · rcases List.mem_map.mp hd with ⟨post, hpost, rfl⟩
    constructor
    · intro u hu
      unfold mkDispatchItem at hu
      by_cases hw : (truthyV (settingsGetD settings "webhooks" (SettVal.b false))
          && ch.canWebhook) = false
      · rw [if_pos hw] at hu
        by_cases hsb : truthyV (settingsGetD settings "source_button" (SettVal.b false)) = true
        · cases hcl : post.content_link with
          | none =>
            simp [Dispatch.sourceUrls, PosterView.sourceButtonUrl, hcl, hsb] at hu
            exact hu
          | some cl =>
            simp [Dispatch.sourceUrls, PosterView.sourceButtonUrl, hcl, hsb] at hu
            exact hu
        · cases hcl : post.content_link with
          | none =>
            simp [Dispatch.sourceUrls, PosterView.sourceButtonUrl, hcl, hsb] at hu
          | some cl =>
            simp [Dispatch.sourceUrls, PosterView.sourceButtonUrl, hcl, hsb] at hu
      · rw [if_neg hw] at hu
        simp [Dispatch.sourceUrls] at hu
    · intro un av e heq
      unfold mkDispatchItem at heq
      by_cases hw : (truthyV (settingsGetD settings "webhooks" (SettVal.b false))
          && ch.canWebhook) = false
      · rw [if_pos hw] at heq
        simp at heq
      · rw [if_neg hw] at heq
        refine ⟨ext.unescape post.author, ?_⟩
        have h1 := (Dispatch.hook.injEq _ _ _ _ _ _).mp heq
        exact h1.1.symm

end RedditMM

namespace RedditMM

/-- Concrete externals for the C9 scenario: identity `unescape`, a
`validators.url` that accepts nothing (all candidate urls are plain
text-only attachments). -/
def c9ext : PyExt := ⟨fun s => s, fun _ => false⟩

/-- C9 scenario, newest candidate: admitted. -/
def c9A : Submission := ⟨30, false, "ua", "uA", "/pA", "", "tA", false, "subA"⟩

/-- C9 scenario, middle candidate: admitted, and the last candidate to
pass the timestamp/ignore/seen checks (so it is the last to assign the
loop variable `link`). -/
def c9B : Submission := ⟨20, false, "ub", "uB", "/pB", "", "tB", false, "subB"⟩

/-- C9 scenario, oldest candidate: fresh by timestamp but already seen, so
it is skipped after the scan examines it — it is the last candidate
examined (the final value of the loop variable `feed`). -/
def c9C : Submission := ⟨10, false, "uc", "uC", "/pC", "", "tC", false, "subC"⟩

/-- C9 scenario settings: full batch, source buttons on, bot messages. -/
def c9settings : Settings := [("latest", SettVal.b false), ("source_button", SettVal.b true)]

/-- The C9 scenario run: guild 1, NSFW channel, cursor 0, with `uC`
already recorded as seen for guild 1. -/
def c9r : FSResult :=
  format_send c9ext [c9A, c9B, c9C] ⟨1, true, false⟩ 0 "s" c9settings ⟨[(1, "uC")], []⟩

/-- The first delivery dispatched in the C9 scenario (the message for the
admitted post `c9B`, since dispatch runs oldest-admitted first). -/
def c9d0 : Dispatch := (c9r.dispatch.head?).getD (Dispatch.hook "" (SettVal.s "") [])

/-- C9 counterexample.  The batch admits two posts (`c9A` and `c9B`); the
last-scanned candidate is `c9C` (examined, then rejected by the seen
check).  The first dispatched delivery is the message for `c9B` — an
admitted post other than the last-scanned candidate — and its Source
button URL is `https://reddit.com/pB`, which is exactly `c9B`'s own link
(also the url of the embed being sent).  So it is not true that every
admitted post other than the last-scanned candidate gets a source control
referring to a different post: the loop variable `link` is last assigned
by the last candidate passing the timestamp/ignore/seen checks (`c9B`),
not by the last candidate examined (`c9C`). -/
theorem C9_counterexample :
    c9r.posts.length = 2
      ∧ c9r.feedVar = some c9C
      ∧ c9d0 ∈ c9r.dispatch
      ∧ c9d0.embedUrls = ["https://reddit.com/pB"]
      ∧ c9d0.sourceUrls = ["https://reddit.com/pB"] := by
  refine ⟨by decide, by decide, by decide, by decide, by decide⟩

/-- C9 witness: the amended theorem applied to the concrete scenario — the
first dispatched delivery's Source button URL equals the final value of
the loop variable `link`. -/
theorem C9_witness :
    c9d0 ∈ c9r.dispatch
      ∧ "https://reddit.com/pB" ∈ c9d0.sourceUrls
      ∧ "https://reddit.com/pB" = c9r.link.getD "" := by
  refine ⟨by decide, by decide, ?_⟩
  exact (C9_source_from_final_loop_vars c9ext [c9A, c9B, c9C] ⟨1, true, false⟩ 0 "s"
      c9settings ⟨[(1, "uC")], []⟩ c9d0 (by decide)).1 "https://reddit.com/pB" (by decide)

end RedditMM

namespace RedditMM

/-- Neither settings dictionary built by the callers of `format_send`
contains the key `"icon"`: `do_feeds` and `force` both store the
configured logo under `"logo"`. -/
theorem settingsGet?_icon_none (cfg : FeedCfg) :
    settingsGet? (mkSettings cfg) "icon" = none
      ∧ settingsGet? (forceSettings cfg) "icon" = none := by
  constructor <;> rfl

/-- Every webhook delivery produced by dispatching a list of posts carries
the avatar `settings.get("icon", REDDIT_LOGO)`; when the settings hold no
`"icon"` key this is the default Reddit logo. -/
theorem dispatch_hook_avatar (ext : PyExt) (settings : Settings) (w : Bool)
    (st : LoopState)
    (hicon : settingsGetD settings "icon" (SettVal.s REDDIT_LOGO) = SettVal.s REDDIT_LOGO) :
    ∀ posts : List Post,
      ((posts.map (mkDispatchItem ext settings w st)).all fun d =>
        match d with
        | Dispatch.hook _ av _ => av == SettVal.s REDDIT_LOGO
        | _ => true) = true := by
  intro posts
  induction posts with
  | nil => rfl
  | cons p ps ih =>
    simp only [List.map_cons, List.all_cons, ih, Bool.and_true]
    unfold mkDispatchItem
    by_cases hw : w = false
    · rw [if_pos hw]
    · rw [if_neg hw]
      simp [hicon]

/-- Whenever the settings dictionary holds no overriding `"icon"` value,
every webhook delivery of a `format_send` call carries the default avatar. -/
theorem format_send_hook_avatar (ext : PyExt) (data : List Submission) (ch : Chan)
    (lp : Int) (sub : String) (settings : Settings) (db : DB)
    (hicon : settingsGetD settings "icon" (SettVal.s REDDIT_LOGO) = SettVal.s REDDIT_LOGO) :
    ((format_send ext data ch lp sub settings db).dispatch.all fun d =>
      match d with
      | Dispatch.hook _ av _ => av == SettVal.s REDDIT_LOGO
      | _ => true) = true := by
  simp only [format_send]
  split <;> split
  · rfl
  · exact dispatch_hook_avatar ext settings _ _ hicon _
  · rfl
  · exact dispatch_hook_avatar ext settings _ _ hicon _

/-- C10: for the settings dictionaries actually built by both callers of
`format_send` (`do_feeds` and the `force` command), every webhook delivery
uses the default Reddit logo as its avatar, regardless of the configured
per-feed logo — the webhook send reads `settings.get("icon", REDDIT_LOGO)`
but the callers only ever set the key `"logo"`. -/
theorem C10_webhook_avatar_default (ext : PyExt) (data : List Submission) (ch : Chan)
    (lp : Int) (sub : String) (cfg : FeedCfg) (db : DB) :
    ((format_send ext data ch lp sub (mkSettings cfg) db).dispatch.all fun d =>
        match d with
        | Dispatch.hook _ av _ => av == SettVal.s REDDIT_LOGO
        | _ => true) = true
      ∧ ((format_send ext data ch lp sub (forceSettings cfg) db).dispatch.all fun d =>
        match d with
        | Dispatch.hook _ av _ => av == SettVal.s REDDIT_LOGO
        | _ => true) = true := by
  constructor
  · exact format_send_hook_avatar ext data ch lp sub (mkSettings cfg) db
      (by rw [settingsGetD, (settingsGet?_icon_none cfg).1]; rfl)
  · exact format_send_hook_avatar ext data ch lp sub (forceSettings cfg) db
      (by rw [settingsGetD, (settingsGet?_icon_none cfg).2]; rfl)

end RedditMM

namespace RedditMM

/-- Tick invariant: the tick-local `feeds` cache is exactly the fetch
result for each feed name fetched so far, and no feed name was fetched
twice. -/
def TickInv (fetch : String → Option (List Submission)) (st : TickState) : Prop :=
  st.feeds = st.fetchLog.map (fun n => (n, fetch n)) ∧ st.fetchLog.Nodup

/-- Dispatching a cached response touches neither the cache nor the fetch
log. -/
theorem dispatchResp_cache (ext : PyExt) (ch : Chan) (sub url : String) (cfg : FeedCfg)
    (st : TickState) (resp : Option (List Submission)) :
    (dispatchResp ext ch sub url cfg st resp).feeds = st.feeds
      ∧ (dispatchResp ext ch sub url cfg st resp).fetchLog = st.fetchLog := by
  cases resp <;> exact ⟨rfl, rfl⟩

/-- Processing one subscriber preserves the tick invariant: a cached feed
name is not fetched again, and a fresh fetch is recorded once. -/
theorem processSub_inv (ext : PyExt) (fetch : String → Option (List Submission))
    (ch : Chan) (sub : String) (cfg : FeedCfg) (st : TickState)
    (h : TickInv fetch st) : TickInv fetch (processSub ext fetch ch sub cfg st) := by
  unfold processSub
  rcases hsub : cfg.subreddit with _ | url
  · exact h
  · dsimp only
    by_cases hempty : url.isEmpty = true
    · rw [if_pos hempty]
      exact h
    · rw [if_neg hempty]
      rcases hfind : st.feeds.find? (fun p => p.1 == url) with _ | p
      · rw [hfind]
        dsimp only
        have hnotin : url ∉ st.fetchLog := by
          intro hmem
          have hpair : (url, fetch url) ∈ st.feeds := by
            rw [h.1]
            exact List.mem_map.mpr ⟨url, hmem, rfl⟩
          have := List.find?_eq_none.mp hfind _ hpair
          simp at this
        constructor
        · rcases dispatchResp_cache ext ch sub url cfg
            { st with
              feeds := st.feeds ++ [(url, fetch url)],
              fetchLog := st.fetchLog ++ [url] } (fetch url) with ⟨h1, h2⟩
          rw [h1, h2]
          simp only [h.1, List.map_append, List.map_cons, List.map_nil]
        · rcases dispatchResp_cache ext ch sub url cfg
            { st with
              feeds := st.feeds ++ [(url, fetch url)],
              fetchLog := st.fetchLog ++ [url] } (fetch url) with ⟨h1, h2⟩
          rw [h2]
          rw [List.nodup_append]
          exact ⟨h.2, List.nodup_singleton url,
            fun a ha hb => hnotin (by rwa [List.mem_singleton.mp hb] at ha)⟩
      · rw [hfind]
        dsimp only
        rcases dispatchResp_cache ext ch sub url cfg st p.2 with ⟨h1, h2⟩
        exact ⟨by rw [h1, h2]; exact h.1, by rw [h2]; exact h.2⟩

/-- The inner subscriber fold of `do_feeds` preserves the tick invariant. -/
theorem foldl_processSub_inv (ext : PyExt) (fetch : String → Option (List Submission))
    (ch : Chan) :
    ∀ (l : List (String × FeedCfg)) (st : TickState), TickInv fetch st →
      TickInv fetch (l.foldl (fun s p => processSub ext fetch ch p.1 p.2 s) st) := by
  intro l
  induction l with
  | nil => intro st h; exact h
  | cons p ps ih =>
    intro st h
    exact ih _ (processSub_inv ext fetch ch p.1 p.2 st h)

/-- C8: within a single `do_feeds` tick, each unique feed name is fetched
at most once (the log of performed fetches has no duplicates), and the
tick-local cache maps every fetched name — including names whose fetch
failed with `None` — to its single fetch result, which is what every
subscriber of that feed receives. -/
theorem C8_fetch_once_per_tick (ext : PyExt)
    (fetch : String → Option (List Submission))
    (entries : List ChannelEntry) (db : DB) :
    (do_feeds ext fetch entries db).fetchLog.Nodup
      ∧ (do_feeds ext fetch entries db).feeds
        = (do_feeds ext fetch entries db).fetchLog.map (fun n => (n, fetch n)) := by
  have main : ∀ (l : List ChannelEntry) (st : TickState), TickInv fetch st →
      TickInv fetch (l.foldl
        (fun st entry =>
          match entry.resolved with
          | none => st
          | some ch => entry.reddits.foldl (fun s p => processSub ext fetch ch p.1 p.2 s) st)
        st) := by
    intro l
    induction l with
    | nil => intro st h; exact h
    | cons e es ih =>
      intro st h
      rcases he : e.resolved with _ | ch
      · simp only [List.foldl_cons, he]
        exact ih _ h
      · simp only [List.foldl_cons, he]
        exact ih _ (foldl_processSub_inv ext fetch ch e.reddits st h)
  have h := main entries ⟨[], [], db, []⟩ ⟨rfl, List.nodup_nil⟩
  exact ⟨h.2, h.1⟩

end RedditMM

namespace RedditMMDB

/-- `add_seen_url` preserves the uniqueness of `(guildID, url)`: an insert
only happens when no matching row exists (the `UC_GuildURL` constraint
rejects the statement otherwise), and faults leave the table unchanged. -/
theorem add_seen_url_pairwise (db : List SeenRow) (g : Int) (u : String) (fault : Bool)
    (h : db.Pairwise fun a b => ¬(a.guildID = b.guildID ∧ a.url = b.url)) :
    ((add_seen_url db g u fault).2).Pairwise
      (fun a b => ¬(a.guildID = b.guildID ∧ a.url = b.url)) := by
  unfold add_seen_url
  by_cases hf : fault = true
  · rw [if_pos hf]
    exact h
  · rw [if_neg hf]
    by_cases hdup : (db.any fun r => r.guildID == g && r.url == u) = true
    · rw [if_pos hdup]
      exact h
    · rw [if_neg hdup]
      dsimp only
      rw [List.pairwise_append]
      refine ⟨h, List.pairwise_singleton _ _, ?_⟩
      intro a ha b hb
      rw [List.mem_singleton] at hb
      subst hb
      intro hcontra
      apply hdup
      rw [List.any_eq_true]
      exact ⟨a, ha, by simp [hcontra.1, hcontra.2]⟩

/-- Any sequence of `add_seen_url` calls preserves `(guildID, url)`
uniqueness. -/
theorem applyAdds_pairwise :
    ∀ (ops : List (Int × String × Bool)) (db : List SeenRow),
      (db.Pairwise fun a b => ¬(a.guildID = b.guildID ∧ a.url = b.url)) →
      ((applyAdds ops db).Pairwise fun a b => ¬(a.guildID = b.guildID ∧ a.url = b.url)) := by
  intro ops
  induction ops with
  | nil => intro db h; exact h
  | cons op ops ih =>
    intro db h
    exact ih _ (add_seen_url_pairwise db op.1 op.2.1 op.2.2 h)

end RedditMMDB

/-- C6: starting from an empty `seen_urls` table, no sequence of
`add_seen_url` calls (with or without engine faults) can produce two rows
with the same `(guildID, url)` pair: the `UC_GuildURL UNIQUE` constraint
declared by `prepare_seen_urls_table` makes the duplicate insert fail, and
the failing statement leaves the table unchanged. -/
theorem C6_seen_unique (ops : List (Int × String × Bool)) :
    ((RedditMMDB.applyAdds ops []).Pairwise
      fun a b => ¬(a.guildID = b.guildID ∧ a.url = b.url)) :=
  RedditMMDB.applyAdds_pairwise ops [] List.Pairwise.nil

/-- C2 (code bug): `add_seen_url(7, "https://a")` succeeds (rowcount 1) and
`get_seen_url` then finds the row — but the second, duplicate
`add_seen_url` call raises to the caller instead of returning a no-op
signal: the duplicate insert hits the `UC_GuildURL` constraint and lands in
the `except sqlite3.DatabaseError` handler, whose first statement
`log.error(...)` evaluates the unbound module name `log` and raises
`NameError`.  (The table is still left unchanged, and even with `log`
defined the handler would return `None` — the same value the module uses
for storage failures, not a distinct "already exists" signal.) -/
theorem C2_duplicate_markSeen_raises :
    (RedditMMDB.add_seen_url [] 7 "https://a" false).1 = Except.ok (some 1)
      ∧ RedditMMDB.get_seen_url
          (RedditMMDB.add_seen_url [] 7 "https://a" false).2 7 "https://a" false
          = Except.ok (some 0)
      ∧ (RedditMMDB.add_seen_url
          (RedditMMDB.add_seen_url [] 7 "https://a" false).2 7 "https://a" false).1
          = Except.error (PyErr.nameError "log")
      ∧ (RedditMMDB.add_seen_url
          (RedditMMDB.add_seen_url [] 7 "https://a" false).2 7 "https://a" false).2
          = (RedditMMDB.add_seen_url [] 7 "https://a" false).2 := by
  refine ⟨rfl, rfl, rfl, rfl⟩

/-- C3 (code bug): when the storage engine faults
(`sqlite3.DatabaseError`), none of the store operations of `redditmmdb.py`
returns the intended `None` result — every `except` handler evaluates the
unbound module name `log`, so a `NameError` escapes the store boundary for
each of the eight operations. -/
theorem C3_store_fault_raises :
    RedditMMDB.get_seen_url [] 1 "u" true = Except.error (PyErr.nameError "log")
      ∧ (RedditMMDB.add_seen_url [] 1 "u" true).1 = Except.error (PyErr.nameError "log")
      ∧ RedditMMDB.get_ignored_redditor [] 1 "r" true
          = Except.error (PyErr.nameError "log")
      ∧ (RedditMMDB.add_ignored_redditor [] 1 "r" true).1
          = Except.error (PyErr.nameError "log")
      ∧ (RedditMMDB.del_ignored_redditor [] 1 "r" true).1
          = Except.error (PyErr.nameError "log")
      ∧ RedditMMDB.get_favorite [] 1 "r" none none true
          = Except.error (PyErr.nameError "log")
      ∧ (RedditMMDB.add_favorite [] 1 "r" "u" 2 true).1
          = Except.error (PyErr.nameError "log")
      ∧ (RedditMMDB.del_favorite [] 1 "r" none none true).1
          = Except.error (PyErr.nameError "log") := by
  refine ⟨rfl, rfl, rfl, rfl, rfl, rfl, rfl, rfl⟩

/-- C7 (code bug): both reaction handlers' ❌ branches raise `NameError` on
their very first statement — the unqualified call
`get_message_redditor(reaction.message)` does not resolve, because the
function is a method of the `RedditMM` class and no module-level binding
exists — so no `IgnoredAuthor` record is ever created by
`on_reaction_add` or deleted by `on_reaction_remove`, and the ignore store
state is left untouched. -/
theorem C7_reaction_handlers_raise (db : RedditMM.DB) :
    RedditMM.on_reaction_add_x db
        = (Except.error (PyErr.nameError "get_message_redditor"), db)
      ∧ RedditMM.on_reaction_remove_x db
        = (Except.error (PyErr.nameError "get_message_redditor"), db) := by
  constructor <;> rfl
